import Mathlib

/-!
Shallow embedding of the Petra render-resource core: the handle-addressed
registries, the buffer mutation protocol (in-place update vs destructive
reallocation), the bind-group dependency-invalidation cascade, texture
resizing, and the per-pipeline draw emission of the frame executor.

Sources embedded (paths relative to the repository root):
  src/petra/src/handle.rs        (Handle, Registry)
  src/petra/src/buffer.rs        (Buffer, Buffer::write_data, Buffer::len)
  src/petra/src/manager.rs       (RenderManager::write_to_buffer,
                                  RenderManager::run_render_pass draw logic)
  src/render_lib/src/bind_group.rs (BindGroup, BindGroup::new,
                                  BindGroup::recreate, BindGroupBuilder)
  src/render_lib/src/texture.rs  (FRAMEBUFFER, Texture::resize, Texture::recreate)

The opaque wgpu backend is modelled by an allocation-identity counter:
creating a buffer or texture hands out a fresh allocation id, so that
destroy-and-reallocate is observable as a change of id.  Rust panics
(`panic!`, `expect`, `todo!`, integer division by zero) and debug
assertions are modelled as `Except.error` with the panic message.
-/

namespace Petra

/-- Handle from src/petra/src/handle.rs: an index plus a phantom type tag.
The Rust `PartialEq` impl compares only the index field. -/
structure Handle (α : Type) where
  index : Nat
deriving DecidableEq, Repr

/-- Registry from src/petra/src/handle.rs: an append-only vector of
resources addressed by handle index. -/
structure Registry (α : Type) where
  data : List α
deriving DecidableEq, Repr

/-- Embeds `Registry::new` -/
def Registry.new {α : Type} : Registry α := ⟨[]⟩

/-- Embeds `Registry::add`: appends and returns the handle of the new entry,
whose index is the length of the store before the append. -/
def Registry.add {α : Type} (r : Registry α) (v : α) : Registry α × Handle α :=
  (⟨r.data ++ [v]⟩, ⟨r.data.length⟩)

/-- Embeds `Registry::get` -/
def Registry.get {α : Type} (r : Registry α) (h : Handle α) : Option α :=
  r.data.get? h.index

/-- Rust `Registry::get_mut` followed by a store of the updated value is
modelled as a functional update at the handle index. -/
def Registry.set {α : Type} (r : Registry α) (h : Handle α) (v : α) : Registry α :=
  ⟨r.data.set h.index v⟩

/-- The opaque wgpu device, reduced to the allocation-identity counter the
claims need: each `create_buffer`, `create_buffer_init` or `create_texture`
call returns a fresh allocation id. -/
structure Device where
  nextId : Nat
deriving DecidableEq, Repr

/-- Advances the allocation counter after a backend allocation. -/
def Device.bump (d : Device) : Device := ⟨d.nextId + 1⟩

/-- The backing `wgpu::Buffer` allocation: its identity and its byte size
(`wgpu::Buffer::size`). -/
structure RawBuffer where
  id : Nat
  size : Nat
deriving DecidableEq, Repr

/-- Buffer from src/petra/src/buffer.rs.  `typeTag` models the stored
`TypeId`, `elementSize` the `std::mem::size_of::<T>()` captured at build
time.  Fields that no claim observes (label, usage bitset, the captured
vertex layout, the Arc handles to device and queue) are elided. -/
structure Buffer where
  buffer : RawBuffer
  typeTag : Nat
  elementSize : Nat
deriving DecidableEq, Repr

/-- Embeds `Buffer::len`: `self.buffer.size() / self.element_size` (u64 division). -/
def Buffer.len (b : Buffer) : Nat := b.buffer.size / b.elementSize

/-- The argument of `Buffer::write_data::<T>(&[T])`: the `TypeId` of `T`,
the element size of `T` and the slice length.  The byte slice produced by
`bytemuck::cast_slice` then has length `count * elemSize`. -/
structure WriteData where
  typeTag : Nat
  elemSize : Nat
  count : Nat
deriving DecidableEq, Repr

/-- Byte length of the cast slice passed to the backend. -/
def WriteData.byteLen (d : WriteData) : Nat := d.count * d.elemSize

/-- Embeds `Buffer::write_data` (src/petra/src/buffer.rs lines 101-126).
Returns the updated buffer, the updated device and the structural-change
flag.  A `TypeId` mismatch panics.  If the byte slice is longer than the
current allocation, the old allocation is destroyed and replaced by a
fresh `create_buffer_init` allocation sized to the byte slice and the call
returns `true`; otherwise the write is queued in place and it returns
`false`. -/
def Buffer.write_data (b : Buffer) (dev : Device) (d : WriteData) :
    Except String (Buffer × Device × Bool) :=
  if d.typeTag ≠ b.typeTag then
    .error "Attempted to write to buffer with a different type than it was initialized with"
  else if d.byteLen > b.buffer.size then
    .ok ({ b with buffer := ⟨dev.nextId, d.byteLen⟩ }, dev.bump, true)
  else
    .ok (b, dev, false)

/-- Embeds `wgpu::Extent3d` -/
structure Extent3d where
  width : Nat
  height : Nat
  depthOrArrayLayers : Nat
deriving DecidableEq, Repr

/-- The backing `wgpu::Texture` allocation: its identity and the extent it
was created with. -/
structure RawTexture where
  id : Nat
  extent : Extent3d
deriving DecidableEq, Repr

/-- TextureSize from src/render_lib/src/texture.rs.  The two `f32` scale
factors of `ScaledSurface` are elided: no claim observes them (they feed
only the surface-size computation of the opaque backend). -/
inductive TextureSize
  | d1 (width : Nat)
  | d2 (width height : Nat)
  | d3 (width height depth : Nat)
  | surface
  | scaledSurface
deriving DecidableEq, Repr

/-- Texture from src/render_lib/src/texture.rs.  `dataType` models the
stored `TypeId`; label and the Arc device/queue handles are elided. -/
structure Texture where
  texture : RawTexture
  size : TextureSize
  mipLevelCount : Nat
  sampleCount : Nat
  dataType : Nat
deriving DecidableEq, Repr

/-- Embeds `Texture::resize` (src/render_lib/src/texture.rs lines 80-91): panics
if the target size is surface-relative or changes the dimensionality;
otherwise it updates only the `size` field.  Note that it does not touch
the backing `texture` allocation. -/
def Texture.resize (t : Texture) (size : TextureSize) : Except String Texture :=
  match size with
  | .surface | .scaledSurface =>
    .error "Texture size can only be set to be relative to the surface size at creation"
  | _ =>
    match t.size, size with
    | .d1 _, .d1 x => .ok { t with size := .d1 x }
    | .d2 _ _, .d2 x y => .ok { t with size := .d2 x y }
    | .d3 _ _ _, .d3 x y z => .ok { t with size := .d3 x y z }
    | _, _ => .error "Tried to resize a texture to be a different dimension"

/-- Embeds `Texture::resize_1d` -/
def Texture.resize_1d (t : Texture) (width : Nat) : Except String Texture :=
  t.resize (.d1 width)

/-- Embeds `Texture::resize_2d` -/
def Texture.resize_2d (t : Texture) (width height : Nat) : Except String Texture :=
  t.resize (.d2 width height)

/-- Embeds `Texture::resize_3d` -/
def Texture.resize_3d (t : Texture) (width height depth : Nat) : Except String Texture :=
  t.resize (.d3 width height depth)

/-- Embeds `Texture::recreate` (src/render_lib/src/texture.rs lines 93-111):
destroys the old allocation and replaces it with a freshly created one of
the given extent.  In the source it is private and reached only from
`on_resize` (surface-relative textures), never from `resize`. -/
def Texture.recreate (t : Texture) (dev : Device) (size : Extent3d) : Texture × Device :=
  ({ t with texture := ⟨dev.nextId, size⟩ }, dev.bump)

/-- The concrete texture witnessing the `Texture::resize` divergence: a 2D
texture of extent 4x4 whose backing allocation has id 7. -/
def resizeBugTexture : Texture := ⟨⟨7, ⟨4, 4, 1⟩⟩, .d2 4 4, 1, 1, 0⟩

/-- The resource kind of a `wgpu::BindGroupLayoutEntry` as constructed by
the builder methods of src/render_lib/src/bind_group.rs.  Payload fields
no claim observes (dynamic offsets, min binding sizes, sample types, view
dimensions, access modes) are elided; the storage-texture format derived
from the referenced texture is kept. -/
inductive BindingType
  | uniformBuffer
  | storageBuffer (readOnly : Bool)
  | texture
  | storageTexture (format : Nat)
  | sampler
deriving DecidableEq, Repr

/-- A `wgpu::BindGroupLayoutEntry`: slot, shader-visibility mask and
resource kind. -/
structure LayoutEntry where
  binding : Nat
  visibility : Nat
  ty : BindingType
deriving DecidableEq, Repr

/-- A resolved `wgpu::BindingResource`.  The source can only ever build a
buffer binding or a texture-view binding: the sampler arm of the
resolution loops is `todo!()` and diverges, so no sampler resource value
exists. -/
inductive Resource
  | buffer (allocId : Nat)
  | textureView (allocId : Nat)
deriving DecidableEq, Repr

/-- BindGroup from src/render_lib/src/bind_group.rs: the compiled layout,
the live resolved instantiation (`bind_group`), and the buffer / texture /
sampler dependency lists. -/
structure BindGroup where
  layout : List LayoutEntry
  bindGroup : List (Nat × Resource)
  buffers : List (Nat × Handle Buffer)
  textures : List (Nat × Handle Texture)
  samplers : List (Nat × Unit)
deriving DecidableEq, Repr

/-- Embeds `BindGroup::depends_buffer` -/
def BindGroup.depends_buffer (bg : BindGroup) (h : Handle Buffer) : Bool :=
  bg.buffers.any (fun p => p.2 = h)

/-- Embeds `BindGroup.depends_texture` -/
def BindGroup.depends_texture (bg : BindGroup) (h : Handle Texture) : Bool :=
  bg.textures.any (fun p => p.2 = h)

/-- The buffer-resolution loop shared by `BindGroup::new` and
`BindGroup::recreate`: each (binding, handle) pair is resolved against the
live buffer registry into an entire-buffer binding of the current
allocation; a dangling handle panics via `expect`. -/
def resolveBuffers (reg : Registry Buffer) :
    List (Nat × Handle Buffer) → Except String (List (Nat × Resource))
  | [] => .ok []
  | (binding, h) :: rest =>
    match reg.get h with
    | none => .error "Invalid BufferHandle passed to BindGroupBuilder"
    | some b => do
      let tail ← resolveBuffers reg rest
      .ok ((binding, Resource.buffer b.buffer.id) :: tail)

/-- The texture-resolution loop shared by `BindGroup::new` and
`BindGroup::recreate`: each pair resolves to a view of the current
allocation of the referenced texture. -/
def resolveTextures (reg : Registry Texture) :
    List (Nat × Handle Texture) → Except String (List (Nat × Resource))
  | [] => .ok []
  | (binding, h) :: rest =>
    match reg.get h with
    | none => .error "Invalid TextureHandle passed to BindGroupBuilder"
    | some t => do
      let tail ← resolveTextures reg rest
      .ok ((binding, Resource.textureView t.texture.id) :: tail)

/-- The sampler loop of `BindGroup::new` and `BindGroup::recreate`: its
body is `BindingResource::Sampler(todo!(...))`, an unconditional panic, so
any non-empty sampler dependency list diverges before producing an entry. -/
def resolveSamplers :
    List (Nat × Unit) → Except String (List (Nat × Resource))
  | [] => .ok []
  | _ :: _ => .error "not yet implemented: I need to define samplers first lol"

/-- Embeds `BindGroup::new` (src/render_lib/src/bind_group.rs lines 41-103):
performs the first resolution of every dependency and stores the layout
and the dependency lists.  Buffer entries are pushed first, then texture
views, then samplers, exactly as in the source. -/
def BindGroup.new (layout : List LayoutEntry)
    (buffers : List (Nat × Handle Buffer)) (textures : List (Nat × Handle Texture))
    (samplers : List (Nat × Unit))
    (bufReg : Registry Buffer) (texReg : Registry Texture) :
    Except String BindGroup := do
  let bs ← resolveBuffers bufReg buffers
  let ts ← resolveTextures texReg textures
  let ss ← resolveSamplers samplers
  .ok ⟨layout, bs ++ ts ++ ss, buffers, textures, samplers⟩

/-- Embeds `BindGroup::recreate` (src/render_lib/src/bind_group.rs lines
122-173): re-resolves every dependency handle against the live registries
and replaces only the `bind_group` instantiation; the layout and the
dependency lists are left as they are.  The petra call sites additionally
pass the sampler registry, which the resolution never consults. -/
def BindGroup.recreate (bg : BindGroup)
    (bufReg : Registry Buffer) (texReg : Registry Texture) :
    Except String BindGroup := do
  let bs ← resolveBuffers bufReg bg.buffers
  let ts ← resolveTextures texReg bg.textures
  let ss ← resolveSamplers bg.samplers
  .ok { bg with bindGroup := bs ++ ts ++ ss }

/-- BindGroupBuilder from src/render_lib/src/bind_group.rs: accumulates
layout entries and the three dependency lists. -/
structure BindGroupBuilder where
  entries : List LayoutEntry
  buffers : List (Nat × Handle Buffer)
  textures : List (Nat × Handle Texture)
  samplers : List (Nat × Unit)
deriving DecidableEq, Repr

/-- Embeds `BindGroupBuilder::new`: every list starts empty. -/
def BindGroupBuilder.init : BindGroupBuilder := ⟨[], [], [], []⟩

/-- Embeds `BindGroupBuilder::bind_uniform_buffer`: records a uniform-buffer
layout entry and appends the handle to the buffer dependency list. -/
def BindGroupBuilder.bind_uniform_buffer (b : BindGroupBuilder)
    (binding visibility : Nat) (buffer : Handle Buffer) : BindGroupBuilder :=
  { b with
    entries := b.entries ++ [⟨binding, visibility, .uniformBuffer⟩],
    buffers := b.buffers ++ [(binding, buffer)] }

/-- Embeds `BindGroupBuilder::bind_storage_buffer` -/
def BindGroupBuilder.bind_storage_buffer (b : BindGroupBuilder)
    (binding visibility : Nat) (readOnly : Bool) (buffer : Handle Buffer) :
    BindGroupBuilder :=
  { b with
    entries := b.entries ++ [⟨binding, visibility, .storageBuffer readOnly⟩],
    buffers := b.buffers ++ [(binding, buffer)] }

/-- Embeds `BindGroupBuilder::bind_texture` -/
def BindGroupBuilder.bind_texture (b : BindGroupBuilder)
    (binding visibility : Nat) (texture : Handle Texture) : BindGroupBuilder :=
  { b with
    entries := b.entries ++ [⟨binding, visibility, .texture⟩],
    textures := b.textures ++ [(binding, texture)] }

/-- Embeds `BindGroupBuilder::bind_storage_texture`: derives the exact format
from the referenced texture (panicking on a dangling handle) and appends
to the texture dependency list. -/
def BindGroupBuilder.bind_storage_texture (b : BindGroupBuilder)
    (binding visibility : Nat) (texReg : Registry Texture) (texture : Handle Texture) :
    Except String BindGroupBuilder :=
  match texReg.get texture with
  | none => .error "Invalid texture handle passed to bind_storage_texture"
  | some t =>
    .ok { b with
      entries := b.entries ++ [⟨binding, visibility, .storageTexture t.dataType⟩],
      textures := b.textures ++ [(binding, texture)] }

/-- Embeds `BindGroupBuilder::bind_sampler` (src/render_lib/src/bind_group.rs
lines 309-323): records a sampler layout entry and returns — the sampler
dependency list is NOT extended. -/
def BindGroupBuilder.bind_sampler (b : BindGroupBuilder)
    (binding visibility : Nat) : BindGroupBuilder :=
  { b with entries := b.entries ++ [⟨binding, visibility, .sampler⟩] }

/-- One builder call, for quantifying over arbitrary builder call
sequences. -/
inductive BuilderOp
  | uniformBuffer (binding visibility : Nat) (buffer : Handle Buffer)
  | storageBuffer (binding visibility : Nat) (readOnly : Bool) (buffer : Handle Buffer)
  | texture (binding visibility : Nat) (t : Handle Texture)
  | storageTexture (binding visibility : Nat) (t : Handle Texture)
  | sampler (binding visibility : Nat)
deriving DecidableEq, Repr

/-- Applies one builder call to the accumulating builder. -/
def applyOp (texReg : Registry Texture) (b : BindGroupBuilder) :
    BuilderOp → Except String BindGroupBuilder
  | .uniformBuffer binding vis buf => .ok (b.bind_uniform_buffer binding vis buf)
  | .storageBuffer binding vis ro buf => .ok (b.bind_storage_buffer binding vis ro buf)
  | .texture binding vis t => .ok (b.bind_texture binding vis t)
  | .storageTexture binding vis t => b.bind_storage_texture binding vis texReg t
  | .sampler binding vis => .ok (b.bind_sampler binding vis)

/-- Applies a sequence of builder calls starting from a given builder. -/
def applyOps (texReg : Registry Texture) (b : BindGroupBuilder) :
    List BuilderOp → Except String BindGroupBuilder
  | [] => .ok b
  | op :: rest => do
    let b' ← applyOp texReg b op
    applyOps texReg b' rest

/-- Embeds `BindGroupBuilder::build`: compiles the accumulated entries into the
layout and performs the first resolution via `BindGroup::new`. -/
def BindGroupBuilder.build (b : BindGroupBuilder)
    (bufReg : Registry Buffer) (texReg : Registry Texture) :
    Except String BindGroup :=
  BindGroup.new b.entries b.buffers b.textures b.samplers bufReg texReg

/-- The slice of RenderManager state (src/petra/src/manager.rs) that the
buffer-write invalidation cascade touches. -/
structure RenderManager where
  device : Device
  buffers : Registry Buffer
  textures : Registry Texture
  bindGroups : Registry BindGroup
deriving DecidableEq, Repr

/-- The cascade loop of `RenderManager::write_to_buffer`: every bind group
whose buffer dependency list contains the written handle is recreated
against the updated registries; the others are kept as they are. -/
def recreateDependents (bufReg : Registry Buffer) (texReg : Registry Texture)
    (h : Handle Buffer) : List BindGroup → Except String (List BindGroup)
  | [] => .ok []
  | bg :: rest => do
    let bg' ← if bg.depends_buffer h then bg.recreate bufReg texReg else .ok bg
    let rest' ← recreateDependents bufReg texReg h rest
    .ok (bg' :: rest')

/-- Embeds `RenderManager::write_to_buffer` (src/petra/src/manager.rs lines
211-227): writes through `Buffer::write_data` and, when the write reports
a structural change, recreates every bind group depending on the buffer
before returning. -/
def RenderManager.write_to_buffer (m : RenderManager) (h : Handle Buffer)
    (d : WriteData) : Except String RenderManager :=
  match m.buffers.get h with
  | none => .error "Invalid buffer handle passed to write_to_buffer"
  | some buf => do
    let (buf', dev', changed) ← buf.write_data m.device d
    let buffers' := m.buffers.set h buf'
    if changed then do
      let bgs' ← recreateDependents buffers' m.textures h m.bindGroups.data
      .ok { m with device := dev', buffers := buffers', bindGroups := ⟨bgs'⟩ }
    else
      .ok { m with device := dev', buffers := buffers' }

/-- RenderPipeline from src/petra/src/render_pipeline.rs: the handle lists
the frame executor walks.  The compiled `wgpu::RenderPipeline` object is
opaque to every claim and elided. -/
structure RenderPipeline where
  vertexBuffers : List (Handle Buffer)
  instanceBuffers : List (Handle Buffer)
  bindGroups : List (Handle BindGroup)
  indexBuffers : Option (Handle Buffer)
deriving DecidableEq, Repr

/-- Embeds `wgpu::IndexFormat` -/
inductive IndexFormat
  | uint16
  | uint32
deriving DecidableEq, Repr

/-- The draw command a pipeline emits at the end of
`RenderManager::run_render_pass`: `draw(0..vertexCount, 0..instanceCount)`
or `draw_indexed(0..indexCount, 0, 0..instanceCount)`. -/
inductive DrawCall
  | draw (vertexCount instanceCount : Nat)
  | drawIndexed (format : IndexFormat) (indexCount instanceCount : Nat)
deriving DecidableEq, Repr

/-- The index-format selection of `RenderManager::run_render_pass`
(src/petra/src/manager.rs lines 452-459):
`idx_buffer.inner().size() / size` where `size = idx_buffer.len()`;
u64 division panics when `size` is zero, and a quotient other than 2 or 4
panics with the unsupported-size message. -/
def index_format (byteSize len : Nat) : Except String IndexFormat :=
  if len = 0 then .error "attempt to divide by zero"
  else if byteSize / len = 2 then .ok IndexFormat.uint16
  else if byteSize / len = 4 then .ok IndexFormat.uint32
  else .error "Type of unsupported size used in an index buffer"

/-- The vertex-buffer (and instance-buffer) walk of
`RenderManager::run_render_pass`: resolves each handle (panicking with
`missingMsg` when dangling), records the element count of the first
buffer, and debug-asserts every later buffer reports the same count
(`mismatchMsg`); returns the recorded count, `none` when the list is
empty. -/
def vertex_buffer_size_walk (reg : Registry Buffer)
    (missingMsg mismatchMsg : String) :
    List (Handle Buffer) → Option Nat → Except String (Option Nat)
  | [], acc => .ok acc
  | h :: rest, acc =>
    match reg.get h with
    | none => .error missingMsg
    | some buf =>
      match acc with
      | some size =>
        if size = buf.len then
          vertex_buffer_size_walk reg missingMsg mismatchMsg rest (some size)
        else .error mismatchMsg
      | none =>
        vertex_buffer_size_walk reg missingMsg mismatchMsg rest (some buf.len)

/-- The per-pipeline draw emission of `RenderManager::run_render_pass`
(src/petra/src/manager.rs lines 447-532).  With an index buffer attached:
select the index format, walk the vertex buffers, walk the instance
buffers, and emit `draw_indexed(0..size, 0, 0..instance_size.unwrap_or(1))`.
Without one: walk the vertex buffers and emit
`draw(0..vertex_buffer_size.unwrap_or(1), 0..1)`. -/
def runPipelineDraw (reg : Registry Buffer) (p : RenderPipeline) :
    Except String DrawCall :=
  match p.indexBuffers with
  | some ih =>
    match reg.get ih with
    | none => .error "Invalid BufferHandle used as an index buffer in a render pipeline"
    | some idxBuffer => do
      let size := idxBuffer.len
      let format ← index_format idxBuffer.buffer.size size
      let _ ← vertex_buffer_size_walk reg
        "Invalid BufferHandle used as a vertex buffer in a render pipeline"
        "Vertex buffers in render pipeline have different lengths"
        p.vertexBuffers none
      let instanceSize ← vertex_buffer_size_walk reg
        "Invalid BufferHandle used as an instance buffer in a render pipeline"
        "Instance buffers in render pipeline have different lengths"
        p.instanceBuffers none
      .ok (DrawCall.drawIndexed format size (instanceSize.getD 1))
  | none => do
    let vertexSize ← vertex_buffer_size_walk reg
      "Invalid BufferHandle in a render pipeline"
      "Vertex buffers in render pipeline have different lengths"
      p.vertexBuffers none
    .ok (DrawCall.draw (vertexSize.getD 1) 1)

/-- The element counts of a list of buffer handles, for stating the
minimum-vertex-count property. -/
def elementCounts (reg : Registry Buffer) :
    List (Handle Buffer) → Option (List Nat)
  | [] => some []
  | h :: rest =>
    match reg.get h with
    | none => none
    | some b => (elementCounts reg rest).map (fun cs => b.len :: cs)

/-- FRAMEBUFFER from src/render_lib/src/texture.rs line 21: the sentinel
texture handle with index 0 that stands for the presentation target. -/
def FRAMEBUFFER : Handle Texture := ⟨0⟩

/-- What a color attachment resolves to during `run_render_pass`. -/
inductive AttachmentView
  | surfaceView
  | textureView (allocId : Nat)
deriving DecidableEq, Repr

/-- The color-attachment resolution of `RenderManager::run_render_pass`
(src/petra/src/manager.rs lines 383-403): a handle equal to `FRAMEBUFFER`
resolves to the just-acquired surface view (`views.push(None)`), any other
handle to the current view of the registered texture, panicking when the
handle dangles. -/
def resolve_color_attachment (texReg : Registry Texture) (h : Handle Texture) :
    Except String AttachmentView :=
  if h = FRAMEBUFFER then .ok AttachmentView.surfaceView
  else
    match texReg.get h with
    | none => .error "Invalid TextureHandle found in a render pass"
    | some t => .ok (AttachmentView.textureView t.texture.id)

/-- A one-buffer registry used by concrete witnesses: buffer allocation 3
of 8 bytes, type tag 5, element size 4. -/
def bufRegEx : Registry Buffer := ⟨[⟨⟨3, 8⟩, 5, 4⟩]⟩

/-- A one-texture registry used by concrete witnesses. -/
def texRegEx : Registry Texture := ⟨[resizeBugTexture]⟩

/-- A bind group depending on buffer 0 and texture 0, with a stale
resolved instantiation, used by concrete witnesses. -/
def bgEx : BindGroup :=
  ⟨[⟨0, 1, .uniformBuffer⟩], [(0, Resource.buffer 9)], [(0, ⟨0⟩)], [(1, ⟨0⟩)], []⟩

/-- The bind group `bgEx` after recreation against `bufRegEx` and
`texRegEx`. -/
def bgExRec : BindGroup :=
  ⟨[⟨0, 1, .uniformBuffer⟩], [(0, Resource.buffer 3), (1, Resource.textureView 7)],
   [(0, ⟨0⟩)], [(1, ⟨0⟩)], []⟩

/-- Registry for the cross-family counterexample: an index buffer of 3
u16 indices, a vertex buffer of 3 elements and an instance buffer of 5
elements. -/
def mismatchReg : Registry Buffer :=
  ⟨[⟨⟨0, 6⟩, 1, 2⟩, ⟨⟨1, 12⟩, 2, 4⟩, ⟨⟨2, 20⟩, 3, 4⟩]⟩

/-- Pipeline for the cross-family counterexample: index buffer 0, vertex
buffer 1, instance buffer 2. -/
def mismatchPipe : RenderPipeline := ⟨[⟨1⟩], [⟨2⟩], [], some ⟨0⟩⟩

/-- Registry holding one empty index buffer (0 bytes, element size 2). -/
def emptyIdxReg : Registry Buffer := ⟨[⟨⟨0, 0⟩, 1, 2⟩]⟩

/-- Pipeline whose attached index buffer holds zero elements. -/
def emptyIdxPipe : RenderPipeline := ⟨[], [], [], some ⟨0⟩⟩

/-- Registry holding one vertex buffer of 3 elements (12 bytes, element
size 4). -/
def vtxReg : Registry Buffer := ⟨[⟨⟨0, 12⟩, 2, 4⟩]⟩

/-- Pipeline with that single vertex buffer and no index buffer. -/
def vtxPipe : RenderPipeline := ⟨[⟨0⟩], [], [], none⟩

/-- Manager state for the invalidation-cascade witness: one buffer
(allocation 0, 8 bytes, element size 4) and one bind group depending on
it, with allocation ids 0..4 already handed out. -/
def cascadeMgr : RenderManager :=
  ⟨⟨5⟩, ⟨[⟨⟨0, 8⟩, 5, 4⟩]⟩, ⟨[]⟩,
   ⟨[⟨[⟨0, 1, .uniformBuffer⟩], [(0, Resource.buffer 0)], [(0, ⟨0⟩)], [], []⟩]⟩⟩

/-- The write driving the cascade witness: 4 elements of 4 bytes, 16
bytes total, exceeding the 8-byte capacity. -/
def cascadeWrite : WriteData := ⟨5, 4, 4⟩

/-- The manager state after `write_to_buffer` in the cascade witness: the
buffer was reallocated as allocation 5 of exactly 16 bytes and the
dependent bind group was recreated against it. -/
def cascadeMgrAfter : RenderManager :=
  ⟨⟨6⟩, ⟨[⟨⟨5, 16⟩, 5, 4⟩]⟩, ⟨[]⟩,
   ⟨[⟨[⟨0, 1, .uniformBuffer⟩], [(0, Resource.buffer 5)], [(0, ⟨0⟩)], [], []⟩]⟩⟩

/-- Resolution looks only at the dependency list and the registry, so its
result is determined by them: the resolved entry for every pair of the
buffer dependency list is the current allocation of that handle. -/
theorem resolveBuffers_mem (reg : Registry Buffer) :
    ∀ (l : List (Nat × Handle Buffer)) (res : List (Nat × Resource)),
      resolveBuffers reg l = .ok res →
      ∀ binding h, (binding, h) ∈ l →
        ∃ b, reg.get h = some b ∧ (binding, Resource.buffer b.buffer.id) ∈ res := by
  intro l
  induction l with
  | nil => intro res _ binding h hmem; cases hmem
  | cons p rest ih =>
    intro res hres binding h hmem
    obtain ⟨pb, ph⟩ := p
    unfold resolveBuffers at hres
    cases hget : reg.get ph with
    | none => rw [hget] at hres; cases hres
    | some b =>
      rw [hget] at hres
      cases htail : resolveBuffers reg rest with
      | error e => rw [htail] at hres; cases hres
      | ok tail =>
        rw [htail] at hres
        cases hres
        rcases List.mem_cons.mp hmem with hhead | hrest
        · cases hhead
          exact ⟨b, hget, List.mem_cons_self _ _⟩
        · obtain ⟨b', hget', hmem'⟩ := ih tail htail binding h hrest
          exact ⟨b', hget', List.mem_cons_of_mem _ hmem'⟩

/-- Lemma: `recreate` rebuilds only the instantiation: the layout and the three
dependency lists of the result are those of the input. -/
theorem recreate_parts (bg bg' : BindGroup) (bufReg : Registry Buffer)
    (texReg : Registry Texture) (h : bg.recreate bufReg texReg = .ok bg') :
    bg'.layout = bg.layout ∧ bg'.buffers = bg.buffers ∧
    bg'.textures = bg.textures ∧ bg'.samplers = bg.samplers ∧
    ∃ bs ts ss, resolveBuffers bufReg bg.buffers = .ok bs ∧
      resolveTextures texReg bg.textures = .ok ts ∧
      resolveSamplers bg.samplers = .ok ss ∧
      bg'.bindGroup = bs ++ ts ++ ss := by
  unfold BindGroup.recreate at h
  cases hbs : resolveBuffers bufReg bg.buffers with
  | error e => rw [hbs] at h; cases h
  | ok bs =>
    rw [hbs] at h
    cases hts : resolveTextures texReg bg.textures with
    | error e => rw [hts] at h; cases h
    | ok ts =>
      rw [hts] at h
      cases hss : resolveSamplers bg.samplers with
      | error e => rw [hss] at h; cases h
      | ok ss =>
        rw [hss] at h
        cases h
        exact ⟨rfl, rfl, rfl, rfl, bs, ts, ss, rfl, rfl, rfl, rfl⟩

/-- C5: recreating a bind group twice against unchanged registries yields
the identical bind group the second time (in particular identical resolved
bindings), and each call leaves the compiled layout and the buffer /
texture / sampler dependency lists untouched, rebuilding only the resolved
instantiation. -/
theorem recreate_idempotent (bg bg' bg'' : BindGroup) (bufReg : Registry Buffer)
    (texReg : Registry Texture)
    (h1 : bg.recreate bufReg texReg = .ok bg')
    (h2 : bg'.recreate bufReg texReg = .ok bg'') :
    bg'' = bg' ∧
    bg'.layout = bg.layout ∧ bg'.buffers = bg.buffers ∧
    bg'.textures = bg.textures ∧ bg'.samplers = bg.samplers := by
  obtain ⟨hl, hb, ht, hs, bs, ts, ss, hbs, hts, hss, hres⟩ :=
    recreate_parts bg bg' bufReg texReg h1
  obtain ⟨hl', hb', ht', hs', bs', ts', ss', hbs', hts', hss', hres'⟩ :=
    recreate_parts bg' bg'' bufReg texReg h2
  refine ⟨?_, hl, hb, ht, hs⟩
  rw [hb] at hbs'
  rw [ht] at hts'
  rw [hs] at hss'
  rw [hbs] at hbs'
  rw [hts] at hts'
  rw [hss] at hss'
  cases hbs'
  cases hts'
  cases hss'
  cases bg'' with
  | mk l2 r2 b2 t2 s2 =>
    cases bg' with
    | mk l1 r1 b1 t1 s1 =>
      simp_all

/-- Witness for `recreate_idempotent`: a bind group depending on buffer 0
and texture 0, recreated twice against one-element registries; the second
recreation returns the first result unchanged and the dependency lists of
the result are those of the input. -/
theorem recreate_idempotent_witness :
    bgExRec = bgExRec ∧ bgExRec.layout = bgEx.layout ∧
    bgExRec.buffers = bgEx.buffers ∧ bgExRec.textures = bgEx.textures ∧
    bgExRec.samplers = bgEx.samplers :=
  recreate_idempotent bgEx bgExRec bgExRec bufRegEx texRegEx rfl rfl

/-- One builder call leaves the sampler dependency list exactly as it
was: no builder method ever appends to it. -/
theorem applyOp_samplers (texReg : Registry Texture) (b b1 : BindGroupBuilder)
    (op : BuilderOp) (hop : applyOp texReg b op = .ok b1) :
    b1.samplers = b.samplers := by
  cases op with
  | storageTexture binding vis t =>
    simp only [applyOp, BindGroupBuilder.bind_storage_texture] at hop
    cases hget : texReg.get t with
    | none => rw [hget] at hop; cases hop
    | some tex => rw [hget] at hop; cases hop; rfl
  | uniformBuffer binding vis buf => cases hop; rfl
  | storageBuffer binding vis ro buf => cases hop; rfl
  | texture binding vis t => cases hop; rfl
  | sampler binding vis => cases hop; rfl

/-- A builder call sequence leaves the sampler dependency list as it
started. -/
theorem applyOps_samplers (texReg : Registry Texture) :
    ∀ (ops : List BuilderOp) (b b' : BindGroupBuilder),
      applyOps texReg b ops = .ok b' → b'.samplers = b.samplers := by
  intro ops
  induction ops with
  | nil =>
    intro b b' h
    unfold applyOps at h
    cases h
    rfl
  | cons op rest ih =>
    intro b b' h
    unfold applyOps at h
    cases hop : applyOp texReg b op with
    | error e => rw [hop] at h; cases h
    | ok b1 =>
      rw [hop] at h
      simp only [bind, Except.bind] at h
      rw [ih b1 b' h]
      exact applyOp_samplers texReg b b1 op hop

/-- C10: every bind group builder reachable by any sequence of builder
calls from `BindGroupBuilder::new` has an empty sampler dependency list —
`bind_sampler` records a sampler layout entry but never adds to the
sampler list — so the unconditionally-panicking sampler resolution arm of
`BindGroup::new` / `BindGroup::recreate` is unreachable for every built
bind group and contributes no resolved binding. -/
theorem sampler_resolution_unreachable (texReg : Registry Texture)
    (ops : List BuilderOp) (b : BindGroupBuilder)
    (happ : applyOps texReg BindGroupBuilder.init ops = .ok b) :
    b.samplers = [] ∧ resolveSamplers b.samplers = .ok [] ∧
    (∀ (b2 : BindGroupBuilder) (binding vis : Nat),
      (b2.bind_sampler binding vis).samplers = b2.samplers ∧
      (b2.bind_sampler binding vis).entries =
        b2.entries ++ [⟨binding, vis, BindingType.sampler⟩]) := by
  have hs : b.samplers = [] := applyOps_samplers texReg ops BindGroupBuilder.init b happ
  refine ⟨hs, ?_, ?_⟩
  · rw [hs]
    rfl
  · intro b2 binding vis
    exact ⟨rfl, rfl⟩

/-- Witness for `sampler_resolution_unreachable`: binding a sampler, a
uniform buffer and a texture still leaves the sampler dependency list
empty. -/
theorem sampler_resolution_unreachable_witness :
    (⟨[⟨0, 1, .sampler⟩, ⟨1, 1, .uniformBuffer⟩, ⟨2, 1, .texture⟩],
      [(1, ⟨0⟩)], [(2, ⟨0⟩)], []⟩ : BindGroupBuilder).samplers = [] ∧
    resolveSamplers ([] : List (Nat × Unit)) = .ok [] := by
  have h := sampler_resolution_unreachable texRegEx
    [BuilderOp.sampler 0 1, BuilderOp.uniformBuffer 1 1 ⟨0⟩, BuilderOp.texture 2 1 ⟨0⟩]
    ⟨[⟨0, 1, .sampler⟩, ⟨1, 1, .uniformBuffer⟩, ⟨2, 1, .texture⟩],
      [(1, ⟨0⟩)], [(2, ⟨0⟩)], []⟩ rfl
  exact ⟨h.1, h.2.1⟩

/-- C8: a color attachment whose texture handle has index 0 always
resolves to the just-acquired presentation-target view — whatever the
texture registry holds — because the FRAMEBUFFER sentinel is the handle
with index 0 and handle equality compares only the index; and the first
texture ever added to an empty registry receives exactly index 0, making
it indistinguishable from the sentinel in attachment resolution. -/
theorem framebuffer_sentinel_collision :
    (∀ (texReg : Registry Texture) (h : Handle Texture), h.index = 0 →
      resolve_color_attachment texReg h = .ok AttachmentView.surfaceView) ∧
    (∀ (t : Texture), ((Registry.new (α := Texture)).add t).2.index = 0) ∧
    (∀ (a b : Handle Texture), a = b ↔ a.index = b.index) := by
  refine ⟨?_, ?_, ?_⟩
  · intro texReg h hzero
    have : h = FRAMEBUFFER := by
      cases h
      simp only [FRAMEBUFFER]
      simp_all
    rw [this]
    simp [resolve_color_attachment]
  · intro t
    rfl
  · intro a b
    cases a
    cases b
    simp

/-- Witness for `framebuffer_sentinel_collision`: with a texture (backing
allocation 7) registered at index 0, the attachment with handle index 0
still resolves to the surface view, not to that texture. -/
theorem framebuffer_sentinel_collision_witness :
    resolve_color_attachment ⟨[resizeBugTexture]⟩ ⟨0⟩ = .ok AttachmentView.surfaceView ∧
    ((Registry.new (α := Texture)).add resizeBugTexture).2.index = 0 ∧
    ((⟨0⟩ : Handle Texture) = ⟨0⟩ ↔ (0 : Nat) = 0) :=
  ⟨framebuffer_sentinel_collision.1 ⟨[resizeBugTexture]⟩ ⟨0⟩ rfl,
   framebuffer_sentinel_collision.2.1 resizeBugTexture,
   framebuffer_sentinel_collision.2.2 ⟨0⟩ ⟨0⟩⟩

/-- C2: a write whose byte length fits within the current capacity is an
in-place queued update that reports no structural change and leaves the
allocation (identity and capacity) untouched; a write that exceeds the
capacity destroys the current allocation, allocates a fresh one sized
exactly to the payload, and reports structural change. -/
theorem write_data_structural_change (b : Buffer) (dev : Device) (d : WriteData)
    (htype : d.typeTag = b.typeTag) (hfresh : b.buffer.id < dev.nextId) :
    (d.byteLen ≤ b.buffer.size →
      Buffer.write_data b dev d = .ok (b, dev, false)) ∧
    (d.byteLen > b.buffer.size →
      Buffer.write_data b dev d =
        .ok ({ b with buffer := ⟨dev.nextId, d.byteLen⟩ }, dev.bump, true) ∧
      dev.nextId ≠ b.buffer.id) := by
  constructor
  · intro hle
    simp [Buffer.write_data, htype, Nat.not_lt.mpr hle]
  · intro hgt
    refine ⟨?_, (Nat.ne_of_lt hfresh).symm⟩
    simp [Buffer.write_data, htype, hgt]

/-- Witness for `write_data_structural_change`: a buffer of 8 bytes holding
4-byte elements; writing 2 elements (8 bytes) stays in place with flag
`false`, writing 4 elements (16 bytes) reallocates to exactly 16 bytes with
flag `true`. -/
theorem write_data_structural_change_witness :
    Buffer.write_data ⟨⟨0, 8⟩, 5, 4⟩ ⟨1⟩ ⟨5, 4, 2⟩ = .ok (⟨⟨0, 8⟩, 5, 4⟩, ⟨1⟩, false) ∧
    Buffer.write_data ⟨⟨0, 8⟩, 5, 4⟩ ⟨1⟩ ⟨5, 4, 4⟩ = .ok (⟨⟨1, 16⟩, 5, 4⟩, ⟨2⟩, true) :=
  ⟨(write_data_structural_change ⟨⟨0, 8⟩, 5, 4⟩ ⟨1⟩ ⟨5, 4, 2⟩ rfl (by decide)).1 (by decide),
   ((write_data_structural_change ⟨⟨0, 8⟩, 5, 4⟩ ⟨1⟩ ⟨5, 4, 4⟩ rfl (by decide)).2 (by decide)).1⟩

/-- C7 evaluation: an explicit in-dimension resize of a 2D texture
succeeds and updates the stored size, but the backing allocation (id 7,
extent 4x4) is left untouched — no destroy-and-reallocate happens and no
structural change is signalled — while a cross-dimensionality resize is a
reported fatal condition as the claim states. -/
theorem texture_resize_keeps_allocation :
    Texture.resize_2d resizeBugTexture 8 8 =
      .ok ⟨⟨7, ⟨4, 4, 1⟩⟩, .d2 8 8, 1, 1, 0⟩ ∧
    Texture.resize_3d resizeBugTexture 2 2 2 =
      .error "Tried to resize a texture to be a different dimension" := by
  constructor
  · rfl
  · rfl

/-- C6: for a well-formed index buffer holding k > 0 elements (byte size
= k * element size), the index-format selection of `run_render_pass`
resolves a 2-byte element width to 16-bit indices and a 4-byte width to
32-bit indices, and any other width is a reported fatal condition. -/
theorem index_format_by_width (b : Buffer) (k : Nat)
    (hsize : b.buffer.size = k * b.elementSize) (hk : k ≠ 0) :
    (b.elementSize = 2 → index_format b.buffer.size b.len = .ok IndexFormat.uint16) ∧
    (b.elementSize = 4 → index_format b.buffer.size b.len = .ok IndexFormat.uint32) ∧
    (b.elementSize ≠ 2 → b.elementSize ≠ 4 →
      ∃ e, index_format b.buffer.size b.len = .error e) := by
  by_cases hes : b.elementSize = 0
  · have hsz : b.buffer.size = 0 := by rw [hsize, hes, Nat.mul_zero]
    have hlen : b.len = 0 := by simp [Buffer.len, hsz]
    refine ⟨fun h2 => absurd (hes ▸ h2) (by decide), fun h4 => absurd (hes ▸ h4) (by decide), ?_⟩
    intro _ _
    exact ⟨"attempt to divide by zero", by simp [index_format, hlen]⟩
  · have hlen : b.len = k := by
      rw [Buffer.len, hsize]
      exact Nat.mul_div_cancel _ (Nat.pos_of_ne_zero hes)
    have hdiv : b.buffer.size / b.len = b.elementSize := by
      rw [hlen, hsize, Nat.mul_comm]
      exact Nat.mul_div_cancel _ (Nat.pos_of_ne_zero hk)
    refine ⟨?_, ?_, ?_⟩
    · intro h2
      rw [index_format, if_neg (hlen ▸ hk), hdiv, h2]
      rfl
    · intro h4
      rw [index_format, if_neg (hlen ▸ hk), hdiv, h4]
      rfl
    · intro h2 h4
      refine ⟨"Type of unsupported size used in an index buffer", ?_⟩
      rw [index_format, if_neg (hlen ▸ hk), hdiv, if_neg h2, if_neg h4]

/-- Witness for `index_format_by_width`: 3 elements of width 2 resolve to
16-bit, 3 elements of width 4 to 32-bit, and 3 elements of width 8 are a
reported fatal condition. -/
theorem index_format_by_width_witness :
    index_format ((⟨⟨0, 6⟩, 1, 2⟩ : Buffer)).buffer.size ((⟨⟨0, 6⟩, 1, 2⟩ : Buffer)).len =
      .ok IndexFormat.uint16 ∧
    index_format ((⟨⟨0, 12⟩, 1, 4⟩ : Buffer)).buffer.size ((⟨⟨0, 12⟩, 1, 4⟩ : Buffer)).len =
      .ok IndexFormat.uint32 ∧
    ∃ e, index_format ((⟨⟨0, 24⟩, 1, 8⟩ : Buffer)).buffer.size ((⟨⟨0, 24⟩, 1, 8⟩ : Buffer)).len =
      .error e :=
  ⟨(index_format_by_width ⟨⟨0, 6⟩, 1, 2⟩ 3 rfl (by decide)).1 rfl,
   (index_format_by_width ⟨⟨0, 12⟩, 1, 4⟩ 3 rfl (by decide)).2.1 rfl,
   (index_format_by_width ⟨⟨0, 24⟩, 1, 8⟩ 3 rfl (by decide)).2.2 (by decide) (by decide)⟩

/-- C9: when the attached index buffer holds zero elements, the format
computation of `run_render_pass` divides the byte size by the zero element
count and the frame executor panics with a division by zero before any
draw is issued. -/
theorem indexed_draw_empty_index_buffer (reg : Registry Buffer)
    (p : RenderPipeline) (ih : Handle Buffer) (buf : Buffer)
    (hidx : p.indexBuffers = some ih) (hget : reg.get ih = some buf)
    (hlen : buf.len = 0) :
    runPipelineDraw reg p = .error "attempt to divide by zero" := by
  simp [runPipelineDraw, hidx, hget, index_format, hlen, bind, Except.bind]

/-- Witness for `indexed_draw_empty_index_buffer`: a pipeline whose index
buffer has byte size 0. -/
theorem indexed_draw_empty_index_buffer_witness :
    runPipelineDraw emptyIdxReg emptyIdxPipe = .error "attempt to divide by zero" :=
  indexed_draw_empty_index_buffer emptyIdxReg emptyIdxPipe ⟨0⟩ ⟨⟨0, 0⟩, 1, 2⟩ rfl rfl rfl

/-- Starting from a recorded count, the buffer walk succeeds only when
every remaining buffer resolves and reports exactly that count, which it
then returns unchanged. -/
theorem walk_from_some (reg : Registry Buffer) (m1 m2 : String) :
    ∀ (l : List (Handle Buffer)) (k : Nat) (r : Option Nat),
      vertex_buffer_size_walk reg m1 m2 l (some k) = .ok r →
      r = some k ∧ ∀ h ∈ l, ∃ b, reg.get h = some b ∧ b.len = k := by
  intro l
  induction l with
  | nil =>
    intro k r hw
    unfold vertex_buffer_size_walk at hw
    cases hw
    exact ⟨rfl, by intro h hmem; cases hmem⟩
  | cons h0 rest ih =>
    intro k r hw
    unfold vertex_buffer_size_walk at hw
    cases hget : reg.get h0 with
    | none => rw [hget] at hw; cases hw
    | some b0 =>
      rw [hget] at hw
      dsimp only at hw
      by_cases hbl : k = b0.len
      · rw [if_pos hbl] at hw
        obtain ⟨hr, hall⟩ := ih k r hw
        refine ⟨hr, ?_⟩
        intro h hmem
        rcases List.mem_cons.mp hmem with hh | hh
        · exact ⟨b0, hh ▸ hget, hbl.symm⟩
        · exact hall h hh
      · rw [if_neg hbl] at hw
        cases hw

/-- Starting empty, a successful buffer walk over a non-empty list
resolves every buffer to one common element count, and that count is the
returned one. -/
theorem walk_from_none (reg : Registry Buffer) (m1 m2 : String) :
    ∀ (l : List (Handle Buffer)) (r : Option Nat),
      vertex_buffer_size_walk reg m1 m2 l none = .ok r →
      ∀ h ∈ l, ∃ b, reg.get h = some b ∧ r = some b.len := by
  intro l
  cases l with
  | nil => intro r _ h hmem; cases hmem
  | cons h0 rest =>
    intro r hw h hmem
    unfold vertex_buffer_size_walk at hw
    cases hget : reg.get h0 with
    | none => rw [hget] at hw; cases hw
    | some b0 =>
      rw [hget] at hw
      obtain ⟨hr, hall⟩ := walk_from_some reg m1 m2 rest b0.len r hw
      rcases List.mem_cons.mp hmem with hh | hh
      · exact ⟨b0, hh ▸ hget, hr⟩
      · obtain ⟨b, hgetb, hlenb⟩ := hall h hh
        exact ⟨b, hgetb, by rw [hr, hlenb]⟩

/-- When every handle of the list resolves to a buffer of element count
k, `elementCounts` returns the list of those counts: as long as the
handle list, every entry equal to k. -/
theorem elementCounts_const (reg : Registry Buffer) (k : Nat) :
    ∀ (l : List (Handle Buffer)),
      (∀ h ∈ l, ∃ b, reg.get h = some b ∧ b.len = k) →
      ∃ cs, elementCounts reg l = some cs ∧ cs.length = l.length ∧
        ∀ x ∈ cs, x = k := by
  intro l
  induction l with
  | nil =>
    intro _
    exact ⟨[], rfl, rfl, by intro x hx; cases hx⟩
  | cons h0 rest ih =>
    intro hall
    obtain ⟨b0, hget0, hlen0⟩ := hall h0 (List.mem_cons_self _ _)
    obtain ⟨cs, hcs, hlength, hconst⟩ :=
      ih (fun h hmem => hall h (List.mem_cons_of_mem _ hmem))
    refine ⟨b0.len :: cs, ?_, ?_, ?_⟩
    · unfold elementCounts
      rw [hget0, hcs]
      rfl
    · simp [hlength]
    · intro x hx
      rcases List.mem_cons.mp hx with hh | hh
      · rw [hh, hlen0]
      · exact hconst x hh

/-- C3: a pipeline with no index buffer issues a non-indexed draw whose
vertex count is the minimum element count across its attached vertex
buffers, or exactly 1 vertex when none are attached. -/
theorem nonindexed_draw_min_vertex_count (reg : Registry Buffer)
    (p : RenderPipeline) (n m : Nat)
    (hni : p.indexBuffers = none)
    (hrun : runPipelineDraw reg p = .ok (DrawCall.draw n m)) :
    (p.vertexBuffers = [] → n = 1) ∧
    (p.vertexBuffers ≠ [] →
      ∃ counts, elementCounts reg p.vertexBuffers = some counts ∧
        n ∈ counts ∧ ∀ x ∈ counts, n ≤ x) := by
  rw [runPipelineDraw, hni] at hrun
  cases hw : vertex_buffer_size_walk reg
      "Invalid BufferHandle in a render pipeline"
      "Vertex buffers in render pipeline have different lengths"
      p.vertexBuffers none with
  | error e => rw [hw] at hrun; cases hrun
  | ok vsize =>
    rw [hw] at hrun
    simp only [bind, Except.bind] at hrun
    have hn : n = vsize.getD 1 := by cases hrun; rfl
    constructor
    · intro hempty
      rw [hempty] at hw
      have : vsize = none := by
        unfold vertex_buffer_size_walk at hw
        cases hw
        rfl
      rw [hn, this]
      rfl
    · intro hne
      cases hl : p.vertexBuffers with
      | nil => exact absurd hl hne
      | cons h0 rest =>
        rw [hl] at hw
        have hmem0 := walk_from_none reg _ _ (h0 :: rest) vsize hw h0
          (List.mem_cons_self _ _)
        obtain ⟨b0, hget0, hr0⟩ := hmem0
        have hallk : ∀ h ∈ h0 :: rest, ∃ b, reg.get h = some b ∧ b.len = b0.len := by
          intro h hmem
          obtain ⟨b, hget, hr⟩ := walk_from_none reg _ _ (h0 :: rest) vsize hw h hmem
          rw [hr0] at hr
          exact ⟨b, hget, by injection hr with hr; exact hr.symm⟩
        obtain ⟨cs, hcs, hlength, hconst⟩ := elementCounts_const reg b0.len _ hallk
        have hnb : n = b0.len := by rw [hn, hr0]; rfl
        refine ⟨cs, hl ▸ hcs, ?_, ?_⟩
        · cases hcse : cs with
          | nil => rw [hcse] at hlength; cases hlength
          | cons c cs' =>
            have : c = b0.len := hconst c (hcse ▸ List.mem_cons_self _ _)
            rw [hnb, ← this]
            exact List.mem_cons_self _ _
        · intro x hx
          rw [hnb, hconst x hx]

/-- Witness for `nonindexed_draw_min_vertex_count`: one vertex buffer of
3 elements, no index buffer; the draw covers 3 vertices and 3 is the
minimum of the element counts. -/
theorem nonindexed_draw_min_vertex_count_witness :
    ∃ counts, elementCounts vtxReg vtxPipe.vertexBuffers = some counts ∧
      3 ∈ counts ∧ ∀ x ∈ counts, 3 ≤ x :=
  (nonindexed_draw_min_vertex_count vtxReg vtxPipe 3 1 rfl rfl).2 (by decide)

/-- C4 counterexample: an indexed pipeline whose sole vertex buffer holds
3 elements while its sole instance buffer holds 5; the executor issues
the indexed draw (with instance count 5) instead of reporting the
mismatch as a fatal condition. -/
theorem indexed_draw_no_cross_family_check :
    runPipelineDraw mismatchReg mismatchPipe =
      .ok (DrawCall.drawIndexed IndexFormat.uint16 3 5) ∧
    elementCounts mismatchReg mismatchPipe.vertexBuffers = some [3] ∧
    elementCounts mismatchReg mismatchPipe.instanceBuffers = some [5] :=
  ⟨rfl, rfl, rfl⟩

/-- C4 as amended: before an indexed draw is issued the executor checks
(via debug assertions) that all attached vertex buffers report one common
element count and, separately, that all attached instance buffers report
one common element count; it never compares the vertex-family count with
the instance-family count. -/
theorem indexed_draw_family_counts (reg : Registry Buffer)
    (p : RenderPipeline) (ih : Handle Buffer) (dc : DrawCall)
    (hidx : p.indexBuffers = some ih)
    (hrun : runPipelineDraw reg p = .ok dc) :
    (∀ h1 h2 b1 b2, h1 ∈ p.vertexBuffers → h2 ∈ p.vertexBuffers →
      reg.get h1 = some b1 → reg.get h2 = some b2 → b1.len = b2.len) ∧
    (∀ h1 h2 b1 b2, h1 ∈ p.instanceBuffers → h2 ∈ p.instanceBuffers →
      reg.get h1 = some b1 → reg.get h2 = some b2 → b1.len = b2.len) := by
  rw [runPipelineDraw, hidx] at hrun
  dsimp only at hrun
  cases hgeti : reg.get ih with
  | none => rw [hgeti] at hrun; cases hrun
  | some idxBuffer =>
    rw [hgeti] at hrun
    simp only [bind, Except.bind] at hrun
    cases hfmt : index_format idxBuffer.buffer.size idxBuffer.len with
    | error e => rw [hfmt] at hrun; cases hrun
    | ok format =>
      rw [hfmt] at hrun
      cases hwv : vertex_buffer_size_walk reg
          "Invalid BufferHandle used as a vertex buffer in a render pipeline"
          "Vertex buffers in render pipeline have different lengths"
          p.vertexBuffers none with
      | error e => rw [hwv] at hrun; cases hrun
      | ok vsize =>
        rw [hwv] at hrun
        cases hwi : vertex_buffer_size_walk reg
            "Invalid BufferHandle used as an instance buffer in a render pipeline"
            "Instance buffers in render pipeline have different lengths"
            p.instanceBuffers none with
        | error e => rw [hwi] at hrun; cases hrun
        | ok isize =>
          constructor
          · intro h1 h2 b1 b2 hm1 hm2 hg1 hg2
            obtain ⟨c1, hc1, hr1⟩ := walk_from_none reg _ _ p.vertexBuffers vsize hwv h1 hm1
            obtain ⟨c2, hc2, hr2⟩ := walk_from_none reg _ _ p.vertexBuffers vsize hwv h2 hm2
            rw [hg1] at hc1
            rw [hg2] at hc2
            injection hc1 with hc1
            injection hc2 with hc2
            rw [hc1, hc2]
            rw [hr1] at hr2
            exact Option.some.inj hr2
          · intro h1 h2 b1 b2 hm1 hm2 hg1 hg2
            obtain ⟨c1, hc1, hr1⟩ := walk_from_none reg _ _ p.instanceBuffers isize hwi h1 hm1
            obtain ⟨c2, hc2, hr2⟩ := walk_from_none reg _ _ p.instanceBuffers isize hwi h2 hm2
            rw [hg1] at hc1
            rw [hg2] at hc2
            injection hc1 with hc1
            injection hc2 with hc2
            rw [hc1, hc2]
            rw [hr1] at hr2
            exact Option.some.inj hr2

/-- Updating a registry entry in place makes the same handle resolve to
the updated value. -/
theorem registry_get_set {α : Type} (r : Registry α) (h : Handle α) (v b : α)
    (hget : r.get h = some b) : (r.set h v).get h = some v := by
  unfold Registry.get at hget
  unfold Registry.get Registry.set
  obtain ⟨hlt, -⟩ := List.get?_eq_some.mp hget
  exact List.get?_set_eq_of_lt v hlt

/-- After the cascade loop of `write_to_buffer`, every surviving bind
group that depends on the written buffer has every entry of its buffer
dependency list resolved against the updated registry. -/
theorem recreateDependents_mem (bufReg : Registry Buffer) (texReg : Registry Texture)
    (h : Handle Buffer) :
    ∀ (l l' : List BindGroup), recreateDependents bufReg texReg h l = .ok l' →
      ∀ bg' ∈ l', bg'.depends_buffer h = true →
        ∀ slot hb, (slot, hb) ∈ bg'.buffers →
          ∃ b, bufReg.get hb = some b ∧
            (slot, Resource.buffer b.buffer.id) ∈ bg'.bindGroup := by
  intro l
  induction l with
  | nil =>
    intro l' hrec bg' hmem
    unfold recreateDependents at hrec
    cases hrec
    cases hmem
  | cons bg rest ih =>
    intro l' hrec bg' hmem hdep slot hb hpair
    unfold recreateDependents at hrec
    by_cases hd : bg.depends_buffer h = true
    · rw [if_pos hd] at hrec
      cases hbg : bg.recreate bufReg texReg with
      | error e => rw [hbg] at hrec; cases hrec
      | ok bgr =>
        rw [hbg] at hrec
        simp only [bind, Except.bind] at hrec
        cases hrest : recreateDependents bufReg texReg h rest with
        | error e => rw [hrest] at hrec; cases hrec
        | ok rest' =>
          rw [hrest] at hrec
          cases hrec
          rcases List.mem_cons.mp hmem with hh | hh
          · obtain ⟨-, hbufs, -, -, bs, ts, ss, hbs, -, -, hresolved⟩ :=
              recreate_parts bg bgr bufReg texReg hbg
            rw [hh] at hpair
            rw [hbufs] at hpair
            obtain ⟨b, hgetb, hmemb⟩ := resolveBuffers_mem bufReg bg.buffers bs hbs slot hb hpair
            refine ⟨b, hgetb, ?_⟩
            rw [hh, hresolved]
            exact List.mem_append_left _ (List.mem_append_left _ hmemb)
          · exact ih rest' hrest bg' hh hdep slot hb hpair
    · rw [if_neg hd] at hrec
      simp only [bind, Except.bind] at hrec
      cases hrest : recreateDependents bufReg texReg h rest with
      | error e => rw [hrest] at hrec; cases hrec
      | ok rest' =>
        rw [hrest] at hrec
        cases hrec
        rcases List.mem_cons.mp hmem with hh | hh
        · rw [hh] at hdep
          exact absurd hdep hd
        · exact ih rest' hrest bg' hh hdep slot hb hpair

/-- C1: when `write_to_buffer` returns after a structural change (the
payload exceeded the capacity of buffer B, so the old allocation was
destroyed and a fresh one created), every bind group in the resulting
state whose dependency list contains B has already been recreated: its
resolved binding for B points at the current (fresh) allocation of B and
never at the destroyed one.  Since `render()` only reads state, this
holds strictly before the next frame. -/
theorem buffer_growth_invalidation (m : RenderManager) (h : Handle Buffer)
    (d : WriteData) (buf : Buffer) (m' : RenderManager)
    (hget : m.buffers.get h = some buf)
    (htype : d.typeTag = buf.typeTag)
    (hgrow : buf.buffer.size < d.byteLen)
    (hfresh : buf.buffer.id < m.device.nextId)
    (hrun : m.write_to_buffer h d = .ok m') :
    ∀ bg' ∈ m'.bindGroups.data, bg'.depends_buffer h = true →
      ∀ slot hb, (slot, hb) ∈ bg'.buffers → hb = h →
        ∃ cur, m'.buffers.get h = some cur ∧
          (slot, Resource.buffer cur.buffer.id) ∈ bg'.bindGroup ∧
          cur.buffer.id ≠ buf.buffer.id := by
  unfold RenderManager.write_to_buffer at hrun
  rw [hget] at hrun
  dsimp only at hrun
  rw [Buffer.write_data, if_neg (by rw [htype]; exact fun c => absurd rfl c),
    if_pos hgrow] at hrun
  simp only [bind, Except.bind] at hrun
  cases hrec : recreateDependents (m.buffers.set h { buf with buffer := ⟨m.device.nextId, d.byteLen⟩ })
      m.textures h m.bindGroups.data with
  | error e => rw [hrec] at hrun; cases hrun
  | ok bgs' =>
    rw [hrec] at hrun
    cases hrun
    intro bg' hmem hdep slot hb hpair hbh
    obtain ⟨b, hgetb, hmemb⟩ :=
      recreateDependents_mem _ m.textures h m.bindGroups.data bgs' hrec bg' hmem hdep slot hb hpair
    rw [hbh] at hgetb
    rw [registry_get_set m.buffers h _ buf hget] at hgetb
    injection hgetb with hgetb
    refine ⟨{ buf with buffer := ⟨m.device.nextId, d.byteLen⟩ }, ?_, ?_, ?_⟩
    · exact registry_get_set m.buffers h _ buf hget
    · rw [hgetb]
      exact hmemb
    · exact (Nat.ne_of_lt hfresh).symm

/-- Witness for `buffer_growth_invalidation`: one buffer of 8 bytes
(allocation 0) with a dependent bind group; writing 16 bytes reallocates
as allocation 5 and the bind group in the post state resolves binding 0
to allocation 5, not the destroyed allocation 0. -/
theorem buffer_growth_invalidation_witness :
    ∃ cur, cascadeMgrAfter.buffers.get ⟨0⟩ = some cur ∧
      (0, Resource.buffer cur.buffer.id) ∈
        (⟨[⟨0, 1, .uniformBuffer⟩], [(0, Resource.buffer 5)], [(0, ⟨0⟩)], [], []⟩ : BindGroup).bindGroup ∧
      cur.buffer.id ≠ 0 :=
  buffer_growth_invalidation cascadeMgr ⟨0⟩ cascadeWrite ⟨⟨0, 8⟩, 5, 4⟩ cascadeMgrAfter
    rfl rfl (by decide) (by decide) rfl
    ⟨[⟨0, 1, .uniformBuffer⟩], [(0, Resource.buffer 5)], [(0, ⟨0⟩)], [], []⟩
    (by decide) (by decide) 0 ⟨0⟩ (by decide) rfl

/-- Witness for `indexed_draw_family_counts`, at the concrete
counterexample state: each family is internally consistent there. -/
theorem indexed_draw_family_counts_witness :
    ((⟨⟨1, 12⟩, 2, 4⟩ : Buffer)).len = ((⟨⟨1, 12⟩, 2, 4⟩ : Buffer)).len :=
  (indexed_draw_family_counts mismatchReg mismatchPipe ⟨0⟩
      (DrawCall.drawIndexed IndexFormat.uint16 3 5) rfl rfl).1
    ⟨1⟩ ⟨1⟩ ⟨⟨1, 12⟩, 2, 4⟩ ⟨⟨1, 12⟩, 2, 4⟩ (by decide) (by decide) rfl rfl

end Petra
